import Mathlib

/-!
# dep-service-go: endpoint resolver, client pool and streaming subscriber

A shallow embedding of `dep_service.go` and `common/common.go`.

* Go strings are Lean `String`s; `fmt.Sprintf` with `%s` and `%d` verbs is string
  concatenation with the decimal rendering of the integer.
* A Go pointer that may be `nil` is an `Option`; a call that would dereference a
  `nil` pointer (a run-time panic) returns `none` at the top of its result.
* Calls into other packages (the registry helper, the WebSocket dialer, the JSON
  reader, the logger, `go` statements) are either fields of an environment
  structure or are recorded in an effect trace.
-/

namespace DepServiceGo

/-! ## Data model of `dep_service.go` -/

/-- Go `error` values, identified by their message text. -/
abbrev GoError := String

/-- Registry (dynamic) configuration, `DepServiceNacosOptions`. -/
structure DepServiceNacosOptions where
  Name : String
  Group : String
  Clusters : List String
  BasePath : String
deriving DecidableEq, Repr

/-- Static configuration, `DepServiceStaticOptions`; `Headers` is a map that may be `nil`. -/
structure DepServiceStaticOptions where
  EnableTLS : Bool
  DomainName : String
  BasePath : String
  Headers : Option (List (String × String))
deriving DecidableEq, Repr

/-- Both configuration variants, `DepServiceOptions`; each is a pointer that may be `nil`. -/
structure DepServiceOptions where
  Static : Option DepServiceStaticOptions
  Nacos : Option DepServiceNacosOptions
deriving DecidableEq, Repr

/-- The fields of the registry SDK's `model.Instance` that this repository reads:
`Ip string` and `Port uint64` (every `uint64` is a natural number). -/
structure Instance where
  Ip : String
  Port : Nat
deriving DecidableEq, Repr

/-- The resolver, `DepService`. `Client` is the registry SDK's naming client and `H` the
type of the registered `func()` callbacks. -/
structure DepService (Client H : Type) where
  opts : Option DepServiceOptions
  nacosServiceInstance : Option Instance
  nacosClient : Option Client
  nacosServiceChangedHandlers : List H
deriving DecidableEq, Repr

/-- Argument of `nacos_helper.SelectServiceInstance`. -/
structure SelectServiceInstanceOptions where
  ServiceName : String
  Clusters : List String
  GroupName : String
deriving DecidableEq, Repr

/-- Argument of `nacos_helper.SubscribeServiceInstance`; the callback passed by
`NewDepService` is always the resolver's own `onServiceInstanceChanged`. -/
structure SubscribeServiceInstanceOptions where
  Clusters : List String
  ServiceName : String
  GroupName : String
deriving DecidableEq, Repr

/-- The three functions of the external package `nacos_helper` that the resolver calls.
A Go result pair `(value, err)` is `Except.error err` when `err != nil` and
`Except.ok value` otherwise. -/
structure NacosHelper (Client : Type) where
  GetNamingClient : Except GoError (Option Client)
  SelectServiceInstance :
    Option Client → SelectServiceInstanceOptions → Except GoError (Option Instance)
  SubscribeServiceInstance :
    Option Client → SubscribeServiceInstanceOptions → Option GoError

/-- What a resolver method does besides changing the resolver: a log line (by its
key) or a `go handler()` statement starting a registered callback. -/
inductive ResolverEffect (H : Type) where
  | log (key : String)
  | go (handler : H)
deriving DecidableEq, Repr

/-! ## Operations of `dep_service.go` -/

section Resolver

variable {Client H : Type}

/-- The method `updateNacosServiceInstance`: returns the updated resolver and the Go
`error` (`none` for `nil`). -/
def updateNacosServiceInstance (env : NacosHelper Client) (srv : DepService Client H) :
    Option (DepService Client H × Option GoError) :=
  match srv.opts with
  | none => none
  | some opts =>
    match opts.Nacos with
    | none => some (srv, none)
    | some nacosConf =>
      match env.SelectServiceInstance srv.nacosClient
          { ServiceName := nacosConf.Name
            Clusters := nacosConf.Clusters
            GroupName := nacosConf.Group } with
      | Except.error err => some (srv, some err)
      | Except.ok inst => some ({ srv with nacosServiceInstance := inst }, none)

/-- The constructor `NewDepService`. The outer `Option` is `none` when the call panics
on a `nil` dereference; `Except.error` is the Go result `(nil, err)` and `Except.ok`
the Go result `(service, nil)`. -/
def NewDepService (env : NacosHelper Client) (opts : Option DepServiceOptions) :
    Option (Except GoError (DepService Client H)) :=
  match opts with
  | none => none
  | some o =>
    let service : DepService Client H :=
      { opts := some o
        nacosServiceInstance := none
        nacosClient := none
        nacosServiceChangedHandlers := [] }
    if o.Static.isNone && o.Nacos.isSome then
      match env.GetNamingClient with
      | Except.error err => some (Except.error err)
      | Except.ok client =>
        let service := { service with nacosClient := client }
        match updateNacosServiceInstance env service with
        | none => none
        | some (_, some err) => some (Except.error err)
        | some (service, none) =>
          match o.Nacos with
          | none => none
          | some nacos =>
            match env.SubscribeServiceInstance client
                { Clusters := nacos.Clusters
                  ServiceName := nacos.Name
                  GroupName := nacos.Group } with
            | some err => some (Except.error err)
            | none => some (Except.ok service)
    else
      some (Except.ok service)

/-- The method `OnServiceChanged`: appends the callback to the listener list. -/
def OnServiceChanged (srv : DepService Client H) (handler : H) : DepService Client H :=
  { srv with nacosServiceChangedHandlers := srv.nacosServiceChangedHandlers ++ [handler] }

/-- The method `onServiceInstanceChanged`, called by the registry for a change event
`(instance, err)`: returns the resolver afterwards and the effects performed, in
program order. -/
def onServiceInstanceChanged (srv : DepService Client H) (inst : Option Instance)
    (err : Option GoError) : DepService Client H × List (ResolverEffect H) :=
  let logged : List (ResolverEffect H) := [ResolverEffect.log "service-instance-changed"]
  match err with
  | none =>
    ({ srv with nacosServiceInstance := inst },
      logged ++ srv.nacosServiceChangedHandlers.map ResolverEffect.go)
  | some _ => (srv, logged)

/-- The method `BaseUrl`; `none` is the panic on a resolver whose `opts` pointer is `nil`. -/
def BaseUrl (srv : DepService Client H) (scheme : String) : Option String :=
  match srv.opts with
  | none => none
  | some opts =>
    match opts.Static with
    | some st =>
      let scheme :=
        if st.EnableTLS && (scheme == "http" || scheme == "ws") then scheme ++ "s" else scheme
      some (scheme ++ "://" ++ st.DomainName ++ st.BasePath)
    | none =>
      match opts.Nacos, srv.nacosServiceInstance with
      | some nacos, some inst =>
        some (scheme ++ "://" ++ inst.Ip ++ ":" ++ toString inst.Port ++ nacos.BasePath)
      | _, _ => some ""

/-- The callbacks started by `go` statements in an effect list, in program order. -/
def started : List (ResolverEffect H) → List H
  | [] => []
  | ResolverEffect.go h :: rest => h :: started rest
  | ResolverEffect.log _ :: rest => started rest

end Resolver

/-! ## `common/common.go`: client pool -/

/-- A Go byte slice. -/
abbrev Bytes := List (Fin 256)

/-- A `*resty.Client` as `GetRestyClient` configures it. `id` is the pointer identity:
the number of clients `resty.New()` had constructed before this one.
`SetBaseURL` holds the argument of the `SetBaseURL` call when the call is made. The two
request and response hooks only log and return `nil`. -/
structure RestyClient where
  id : Nat
  MaxIdleConnsPerHost : Nat
  RetryCount : Nat
  RetryWaitTimeSec : Nat
  SetBaseURL : Option String
deriving DecidableEq, Repr

/-- The process-wide pool: the `sync.Map` named `restyClients` (keys are always strings
here) and the number of clients constructed so far. -/
structure Pool where
  restyClients : String → Option RestyClient
  constructed : Nat

/-- The pool at program start: an empty `sync.Map`. -/
def Pool.empty : Pool :=
  { restyClients := fun _ => none, constructed := 0 }

/-- The method `sync.Map.Store`. -/
def Pool.Store (p : Pool) (key : String) (client : RestyClient) : String → Option RestyClient :=
  fun k => if k = key then some client else p.restyClients k

/-- The function `GetRestyClient(baseUrl ...string)`, one call run to completion on the
pool: the returned client and the pool afterwards. -/
def GetRestyClient (baseUrl : List String) (p : Pool) : RestyClient × Pool :=
  let url : String :=
    match baseUrl with
    | [] => ""
    | u :: _ => u
  match p.restyClients url with
  | some c => (c, p)
  | none =>
    let client : RestyClient :=
      { id := p.constructed
        MaxIdleConnsPerHost := 10
        RetryCount := 3
        RetryWaitTimeSec := 5
        SetBaseURL := if url != "" then some url else none }
    (client, { restyClients := p.Store url client, constructed := p.constructed + 1 })

/-- A sequence of calls of `GetRestyClient`, none overlapping another: the pool after
the last one. -/
def GetRestyClientCalls (calls : List (List String)) (p : Pool) : Pool :=
  calls.foldl (fun q baseUrl => (GetRestyClient baseUrl q).2) p

/-! ## `common/common.go`: response envelope -/

/-- The two reads of the external JSON library that `ResponseError` performs:
`jsoniter.Get(body, key).ToInt()` and `jsoniter.Get(body, key).ToString()`. -/
structure Jsoniter where
  GetToInt : Bytes → String → Int
  GetToString : Bytes → String → String

/-- The function `ResponseError`: the Go `error` returned (`none` for `nil`). -/
def ResponseError (json : Jsoniter) (resBody : Bytes) (successCode : Int) : Option GoError :=
  let status := json.GetToInt resBody "status"
  let message := json.GetToString resBody "message"
  if status != successCode then
    some ("invalid status: " ++ toString status ++ " - " ++ message)
  else
    none

/-! ## `common/common.go`: streaming subscriber -/

/-- What `SubscribeByWebSocket` does, in program order. `dial n ok` is the `n`-th call
of `dialer.Dial` (counted from 0); when `ok`, the connection it returned is named `n`.
`read conn r` is a completed `conn.ReadMessage()` with payload `r`, `none` for an error. -/
inductive WsEffect where
  | dial (n : Nat) (ok : Bool)
  | log (key : String)
  | sleep (sec : Nat)
  | read (conn : Nat) (result : Option Bytes)
  | handler (message : Bytes)
  | close (conn : Nat)
deriving DecidableEq, Repr

/-- The environment of one subscription. `Dial n` tells whether the `n`-th dial succeeds,
`ReadMessage n` is the outcome of the `n`-th read (`none` for an error), and `Done t`
tells whether `ctx.Done()` is closed at logical time `t`, the number of effects the
subscriber has performed so far. The arguments `url` and `headers` reach only the dialer
and the logger, so they are part of the environment. -/
structure WsEnv where
  Dial : Nat → Bool
  ReadMessage : Nat → Option Bytes
  Done : Nat → Bool

/-- Control points of `SubscribeByWebSocket`: the label `CONNECT`, the head of the
`for` loop with the open connection, and after `return`. -/
inductive Label where
  | CONNECT
  | LOOP (conn : Nat)
  | RETURN
deriving DecidableEq, Repr

/-- The local state of `SubscribeByWebSocket`: the variable `retryAfterSec` (a
`time.Duration` that never exceeds 60, so its 64-bit range plays no role), the control
point, the numbers of dials and reads made so far, and the effects so far. -/
structure WsState where
  retryAfterSec : Nat
  pc : Label
  dials : Nat
  reads : Nat
  trace : List WsEffect
deriving DecidableEq, Repr

/-- The statement at the label `RECONNECT`. -/
def RECONNECT (retryAfterSec : Nat) : Nat :=
  if retryAfterSec < 60 then retryAfterSec + 5 else retryAfterSec

/-- The effects of either error branch up to its `goto RECONNECT`: the error log, the
extra warning when `retryAfterSec == 60`, the reconnect log and the sleep. -/
def failureEffects (key : String) (retryAfterSec : Nat) : List WsEffect :=
  [WsEffect.log key]
    ++ (if retryAfterSec == 60 then [WsEffect.log "websocket-service-may-be-down"] else [])
    ++ [WsEffect.log "reconnect-websocket", WsEffect.sleep retryAfterSec]

/-- State on entry to `SubscribeByWebSocket`, at the label `CONNECT`. -/
def WsState.init : WsState :=
  { retryAfterSec := 0, pc := Label.CONNECT, dials := 0, reads := 0, trace := [] }

/-- One pass through `SubscribeByWebSocket` from a control point to the next: a dial with
its error branch, or one iteration of the `for` loop. -/
def step (env : WsEnv) (s : WsState) : WsState :=
  match s.pc with
  | Label.CONNECT =>
    if env.Dial s.dials then
      { retryAfterSec := 0
        pc := Label.LOOP s.dials
        dials := s.dials + 1
        reads := s.reads
        trace := s.trace ++ [WsEffect.dial s.dials true] }
    else
      { retryAfterSec := RECONNECT s.retryAfterSec
        pc := Label.CONNECT
        dials := s.dials + 1
        reads := s.reads
        trace := s.trace ++ [WsEffect.dial s.dials false]
          ++ failureEffects "dial-websocket-failed" s.retryAfterSec }
  | Label.LOOP conn =>
    if env.Done s.trace.length then
      { s with pc := Label.RETURN, trace := s.trace ++ [WsEffect.close conn] }
    else
      match env.ReadMessage s.reads with
      | none =>
        { retryAfterSec := RECONNECT s.retryAfterSec
          pc := Label.CONNECT
          dials := s.dials
          reads := s.reads + 1
          trace := s.trace ++ [WsEffect.read conn none]
            ++ failureEffects "read-websocket-message-failed" s.retryAfterSec }
      | some message =>
        { retryAfterSec := 0
          pc := Label.LOOP conn
          dials := s.dials
          reads := s.reads + 1
          trace := s.trace ++ [WsEffect.read conn (some message), WsEffect.handler message] }
  | Label.RETURN => s

/-- The first `n` passes from state `s`. -/
def run (env : WsEnv) : Nat → WsState → WsState
  | 0, s => s
  | n + 1, s => run env n (step env s)

/-- The function `SubscribeByWebSocket` observed after `n` passes. -/
def SubscribeByWebSocket (env : WsEnv) (n : Nat) : WsState :=
  run env n WsState.init

/-! ### Observations on subscriber traces -/

/-- The durations of the sleeps in a trace, in order. -/
def sleeps : List WsEffect → List Nat
  | [] => []
  | WsEffect.sleep w :: rest => w :: sleeps rest
  | _ :: rest => sleeps rest

/-- The payloads passed to the handler in a trace, in order. -/
def handlerCalls : List WsEffect → List Bytes
  | [] => []
  | WsEffect.handler m :: rest => m :: handlerCalls rest
  | _ :: rest => handlerCalls rest

/-- The payloads of the successful reads in a trace, in order. -/
def okReads : List WsEffect → List Bytes
  | [] => []
  | WsEffect.read _ (some m) :: rest => m :: okReads rest
  | _ :: rest => okReads rest

/-- The connections closed in a trace, in order. -/
def closed : List WsEffect → List Nat
  | [] => []
  | WsEffect.close c :: rest => c :: closed rest
  | _ :: rest => closed rest

/-- The wait the backoff rule prescribes after the `k`-th consecutive failure. -/
def backoffWait (k : Nat) : Nat := min (5 * (k - 1)) 60

/-- Reading of a trace against the backoff rule: `k` counts the consecutive failures
since the start or the last success, `owed` tells that a failure has not been followed
by its sleep yet, and `ok` that so far every failure was followed by exactly one sleep,
of `backoffWait k` seconds, before the next dial or read completed. -/
structure BackoffReading where
  k : Nat
  owed : Bool
  ok : Bool
deriving DecidableEq, Repr

/-- The reading before any effect. -/
def BackoffReading.start : BackoffReading := { k := 0, owed := false, ok := true }

/-- One effect read against the backoff rule. -/
def BackoffReading.next (m : BackoffReading) : WsEffect → BackoffReading
  | WsEffect.dial _ true => { k := 0, owed := false, ok := m.ok && !m.owed }
  | WsEffect.read _ (some _) => { k := 0, owed := false, ok := m.ok && !m.owed }
  | WsEffect.dial _ false => { k := m.k + 1, owed := true, ok := m.ok && !m.owed }
  | WsEffect.read _ none => { k := m.k + 1, owed := true, ok := m.ok && !m.owed }
  | WsEffect.sleep w => { k := m.k, owed := false, ok := m.ok && m.owed && w == backoffWait m.k }
  | _ => m

/-- A whole trace read against the backoff rule. -/
def backoffReading (t : List WsEffect) : BackoffReading :=
  t.foldl BackoffReading.next BackoffReading.start

/-- Reading of a trace against the delivery rule: `conn` is the connection returned by
the latest successful dial when no read on it has failed since, `pending` a payload
just read and not yet handed to the handler, and `ok` that so far every read was on
`conn`, every successful read was followed at once by the handler call with its
payload, and the handler was called at no other time. -/
structure DeliveryReading where
  conn : Option Nat
  pending : Option Bytes
  ok : Bool
deriving DecidableEq, Repr

/-- The reading before any effect. -/
def DeliveryReading.start : DeliveryReading := { conn := none, pending := none, ok := true }

/-- One effect read against the delivery rule. -/
def DeliveryReading.next (m : DeliveryReading) : WsEffect → DeliveryReading
  | WsEffect.dial n true => { conn := some n, pending := none, ok := m.ok && m.pending.isNone }
  | WsEffect.dial _ false => { conn := none, pending := none, ok := m.ok && m.pending.isNone }
  | WsEffect.read c (some msg) =>
    { conn := m.conn, pending := some msg
      ok := m.ok && m.pending.isNone && decide (m.conn = some c) }
  | WsEffect.read c none =>
    { conn := none, pending := none
      ok := m.ok && m.pending.isNone && decide (m.conn = some c) }
  | WsEffect.handler msg =>
    { conn := m.conn, pending := none, ok := m.ok && decide (m.pending = some msg) }
  | WsEffect.close _ => { conn := none, pending := none, ok := m.ok && m.pending.isNone }
  | _ => { m with ok := m.ok && m.pending.isNone }

/-- A whole trace read against the delivery rule. -/
def deliveryReading (t : List WsEffect) : DeliveryReading :=
  t.foldl DeliveryReading.next DeliveryReading.start

/-- The connections open after a trace: those returned by a successful dial and not
closed since, oldest first. -/
def openConns : List WsEffect → List Nat :=
  List.foldl
    (fun acc e =>
      match e with
      | WsEffect.dial n true => acc ++ [n]
      | WsEffect.close c => acc.filter (fun x => x != c)
      | _ => acc)
    []

/-- The connection the subscriber holds open at a control point. -/
def connOf : Label → Option Nat
  | Label.LOOP conn => some conn
  | _ => none

/-- Whether the last effect of a trace is a successful dial or a handler call. -/
def afterDialOrHandler (t : List WsEffect) : Bool :=
  match t.getLast? with
  | some (WsEffect.dial _ true) => true
  | some (WsEffect.handler _) => true
  | _ => false

/-- The connection returned by the latest successful dial of a trace. -/
def lastDialed : List WsEffect → Option Nat :=
  List.foldl
    (fun acc e =>
      match e with
      | WsEffect.dial n true => some n
      | _ => acc)
    none

/-! ### Invariants of the subscriber -/

/-- The backoff invariant of the subscriber's states. -/
def BackoffInv (s : WsState) : Prop :=
  ∃ k, backoffReading s.trace = { k := k, owed := false, ok := true }
    ∧ s.retryAfterSec = min (5 * k) 60
    ∧ ∀ w ∈ sleeps s.trace, 5 ∣ w ∧ w ≤ 60

/-- The delivery invariant of the subscriber's states. -/
def DeliveryInv (env : WsEnv) (s : WsState) : Prop :=
  deliveryReading s.trace = { conn := connOf s.pc, pending := none, ok := true }
    ∧ handlerCalls s.trace = okReads s.trace
    ∧ okReads s.trace = (List.range s.reads).filterMap env.ReadMessage

/-- The control invariant of the subscriber's states: it is at the head of the loop,
holding the connection of the latest successful dial, exactly when its last effect is
a successful dial or a handler call. -/
def ControlInv (s : WsState) : Prop :=
  (∀ conn, s.pc = Label.LOOP conn →
      afterDialOrHandler s.trace = true ∧ lastDialed s.trace = some conn)
    ∧ (s.pc = Label.CONNECT → afterDialOrHandler s.trace = false)
    ∧ (s.pc = Label.RETURN → afterDialOrHandler s.trace = false)

/-! ### Concrete environments -/

/-- Every dial succeeds, every read fails, the context is never cancelled. -/
def envReadFails : WsEnv :=
  { Dial := fun _ => true, ReadMessage := fun _ => none, Done := fun _ => false }

/-- The context is cancelled before the call and every dial fails. -/
def envCancelledDialFails : WsEnv :=
  { Dial := fun _ => false, ReadMessage := fun _ => none, Done := fun _ => true }

/-- Every dial and read succeeds (payload `[104, 105]`); the context is cancelled while
the first read is blocked: not yet at time 1, when the loop polls it, and from time 2,
when the read has completed. -/
def envCancelledDuringRead : WsEnv :=
  { Dial := fun _ => true, ReadMessage := fun _ => some [104, 105], Done := fun t => decide (2 ≤ t) }

/-- A registry helper whose every call fails. -/
def failingHelper : NacosHelper Unit :=
  { GetNamingClient := Except.error "no registry"
    SelectServiceInstance := fun _ _ => Except.error "no registry"
    SubscribeServiceInstance := fun _ _ => some "no registry" }

/-- A static configuration. -/
def exampleStatic : DepServiceStaticOptions :=
  { EnableTLS := true, DomainName := "svc.example.com", BasePath := "/api", Headers := none }

/-- A registry configuration. -/
def exampleNacos : DepServiceNacosOptions :=
  { Name := "orders", Group := "DEFAULT_GROUP", Clusters := [], BasePath := "/v1" }

/-! ## Theorems: endpoint resolver -/

section ResolverTheorems

variable {Client H : Type}

theorem started_map_go (hs : List H) :
    started (hs.map ResolverEffect.go) = hs := by
  induction hs with
  | nil => rfl
  | cons h t ih => simp [started, ih]

theorem handlers_foldl_OnServiceChanged (srv : DepService Client H) (hs : List H) :
    (hs.foldl OnServiceChanged srv).nacosServiceChangedHandlers
      = srv.nacosServiceChangedHandlers ++ hs := by
  induction hs generalizing srv with
  | nil => simp
  | cons h t ih => simp [List.foldl, ih, OnServiceChanged]

/-- C1: with a static configuration present, whatever the registry configuration, the
cached instance, the client and the listeners are, `BaseUrl scheme` is
`scheme2 ++ "://" ++ DomainName ++ BasePath`, where `scheme2` is `scheme ++ "s"` when
`EnableTLS` holds and `scheme` is exactly `"http"` or `"ws"`, and `scheme` otherwise;
the three concrete URLs of the specification follow. -/
theorem C1_BaseUrl_static :
    (∀ (st : DepServiceStaticOptions) (nacos : Option DepServiceNacosOptions)
        (inst : Option Instance) (client : Option Client) (hs : List H) (scheme : String),
      BaseUrl
          { opts := some { Static := some st, Nacos := nacos }
            nacosServiceInstance := inst
            nacosClient := client
            nacosServiceChangedHandlers := hs } scheme
        = some ((if st.EnableTLS = true ∧ (scheme = "http" ∨ scheme = "ws")
                  then scheme ++ "s" else scheme)
                ++ "://" ++ st.DomainName ++ st.BasePath))
    ∧ (∀ (hdrs : Option (List (String × String))) (nacos : Option DepServiceNacosOptions)
        (inst : Option Instance) (client : Option Client) (hs : List H),
      let srv : DepService Client H :=
        { opts := some
            { Static := some
                { EnableTLS := true, DomainName := "svc.example.com", BasePath := "/api"
                  Headers := hdrs }
              Nacos := nacos }
          nacosServiceInstance := inst
          nacosClient := client
          nacosServiceChangedHandlers := hs }
      BaseUrl srv "http" = some "https://svc.example.com/api"
        ∧ BaseUrl srv "ws" = some "wss://svc.example.com/api"
        ∧ BaseUrl srv "grpc" = some "grpc://svc.example.com/api") := by
  refine ⟨?_, ?_⟩
  · intro st nacos inst client hs scheme
    by_cases h : st.EnableTLS = true ∧ (scheme = "http" ∨ scheme = "ws")
    · simp [BaseUrl, h]
    · simp only [BaseUrl, if_neg h]
      have : (st.EnableTLS && (scheme == "http" || scheme == "ws")) = false := by
        simp only [not_and_or, not_or] at h
        rcases h with h | ⟨h1, h2⟩
        · simp [h]
        · simp [h1, h2]
      simp [this]
  · intro hdrs nacos inst client hs
    refine ⟨?_, ?_, ?_⟩ <;> simp [BaseUrl]

/-- C2: in dynamic mode (no static configuration, a registry configuration), with a cached
instance `BaseUrl scheme` is `scheme ++ "://" ++ Ip ++ ":" ++ decimal Port ++ BasePath` for
every scheme, never upgraded; with no cached instance it is the empty string; the concrete
URL of the specification follows, and `"http"` stays `"http"`. -/
theorem C2_BaseUrl_dynamic :
    (∀ (nacos : DepServiceNacosOptions) (inst : Instance) (client : Option Client)
        (hs : List H) (scheme : String),
      BaseUrl
          { opts := some { Static := none, Nacos := some nacos }
            nacosServiceInstance := some inst
            nacosClient := client
            nacosServiceChangedHandlers := hs } scheme
        = some (scheme ++ "://" ++ inst.Ip ++ ":" ++ Nat.repr inst.Port ++ nacos.BasePath))
    ∧ (∀ (nacos : DepServiceNacosOptions) (client : Option Client) (hs : List H)
        (scheme : String),
      BaseUrl
          { opts := some { Static := none, Nacos := some nacos }
            nacosServiceInstance := none
            nacosClient := client
            nacosServiceChangedHandlers := hs } scheme
        = some "")
    ∧ (∀ (name group : String) (clusters : List String) (client : Option Client)
        (hs : List H),
      let srv : DepService Client H :=
        { opts := some
            { Static := none
              Nacos := some
                { Name := name, Group := group, Clusters := clusters, BasePath := "/v1" } }
          nacosServiceInstance := some { Ip := "10.0.0.5", Port := 8080 }
          nacosClient := client
          nacosServiceChangedHandlers := hs }
      BaseUrl srv "ws" = some "ws://10.0.0.5:8080/v1"
        ∧ BaseUrl srv "http" = some "http://10.0.0.5:8080/v1") := by
  refine ⟨?_, ?_, ?_⟩
  · intro nacos inst client hs scheme
    rfl
  · intro nacos client hs scheme
    rfl
  · intro name group clusters client hs
    constructor <;> simp only [BaseUrl] <;> decide

/-- C3: a change event that carries an error leaves the whole resolver (cached instance
and listener list) unchanged and starts no listener; an event that carries no error
replaces the cached instance by the event's instance, leaves the listener list and the
other fields unchanged, and starts exactly the registered listeners, each once per
registration, in registration order (so a listener registered `k` times is started `k`
times). -/
theorem C3_onServiceInstanceChanged [DecidableEq H] :
    (∀ (srv : DepService Client H) (inst : Option Instance) (err : GoError),
      (onServiceInstanceChanged srv inst (some err)).1 = srv
        ∧ started (onServiceInstanceChanged srv inst (some err)).2 = [])
    ∧ (∀ (srv : DepService Client H) (inst : Option Instance),
      (onServiceInstanceChanged srv inst none).1 = { srv with nacosServiceInstance := inst }
        ∧ (onServiceInstanceChanged srv inst none).1.nacosServiceChangedHandlers
            = srv.nacosServiceChangedHandlers
        ∧ started (onServiceInstanceChanged srv inst none).2
            = srv.nacosServiceChangedHandlers
        ∧ ∀ h : H, (started (onServiceInstanceChanged srv inst none).2).count h
            = srv.nacosServiceChangedHandlers.count h)
    ∧ (∀ (srv : DepService Client H) (registered : List H) (inst : Option Instance),
      started (onServiceInstanceChanged (registered.foldl OnServiceChanged srv) inst none).2
        = srv.nacosServiceChangedHandlers ++ registered) := by
  have key : ∀ (srv : DepService Client H) (inst : Option Instance),
      started (onServiceInstanceChanged srv inst none).2
        = srv.nacosServiceChangedHandlers := by
    intro srv inst
    simp only [onServiceInstanceChanged, List.singleton_append, started]
    exact started_map_go _
  refine ⟨?_, ?_, ?_⟩
  · intro srv inst err
    exact ⟨rfl, rfl⟩
  · intro srv inst
    refine ⟨rfl, rfl, key srv inst, ?_⟩
    intro h
    rw [key srv inst]
  · intro srv registered inst
    rw [key, handlers_foldl_OnServiceChanged]

/-- C4 (as the code behaves): `NewDepService` validates nothing. With the static
configuration present, with or without a registry configuration, and with neither
present, it returns, without any registry call, a resolver that holds the given options,
no instance, no client and no listener, and no error; so an error is returned only when
the static configuration is absent and the registry configuration is present. -/
theorem C4_NewDepService_no_validation :
    (∀ (env : NacosHelper Client) (st : DepServiceStaticOptions)
        (nacos : Option DepServiceNacosOptions),
      (NewDepService env (some { Static := some st, Nacos := nacos })
          : Option (Except GoError (DepService Client H)))
        = some (Except.ok
            { opts := some { Static := some st, Nacos := nacos }
              nacosServiceInstance := none
              nacosClient := none
              nacosServiceChangedHandlers := [] }))
    ∧ (∀ (env : NacosHelper Client),
      (NewDepService env (some { Static := none, Nacos := none })
          : Option (Except GoError (DepService Client H)))
        = some (Except.ok
            { opts := some { Static := none, Nacos := none }
              nacosServiceInstance := none
              nacosClient := none
              nacosServiceChangedHandlers := [] }))
    ∧ (∀ (env : NacosHelper Client) (o : DepServiceOptions) (err : GoError),
      ¬ ((NewDepService env (some o) : Option (Except GoError (DepService Client H)))
            = some (Except.error err)
          ∧ (o.Static.isSome = true ∨ o.Nacos.isNone = true))) := by
  refine ⟨?_, ?_, ?_⟩
  · intro env st nacos
    rfl
  · intro env
    rfl
  · intro env o err
    rintro ⟨h, hcfg⟩
    obtain ⟨st, nacos⟩ := o
    cases st with
    | some st => simp [NewDepService] at h
    | none =>
      cases nacos with
      | none => simp [NewDepService] at h
      | some nacos => simp at hcfg

/-- C4 fails on the code: with both configurations present, and with neither present,
`NewDepService` returns a resolver and no error; the second resolver then answers every
`BaseUrl` with the empty string. -/
theorem C4_counterexample :
    (NewDepService failingHelper (some { Static := some exampleStatic, Nacos := some exampleNacos })
        : Option (Except GoError (DepService Unit Unit)))
      = some (Except.ok
          { opts := some { Static := some exampleStatic, Nacos := some exampleNacos }
            nacosServiceInstance := none
            nacosClient := none
            nacosServiceChangedHandlers := [] })
    ∧ (NewDepService failingHelper (some { Static := none, Nacos := none })
        : Option (Except GoError (DepService Unit Unit)))
      = some (Except.ok
          { opts := some { Static := none, Nacos := none }
            nacosServiceInstance := none
            nacosClient := none
            nacosServiceChangedHandlers := [] })
    ∧ BaseUrl
        ({ opts := some { Static := none, Nacos := none }
           nacosServiceInstance := none
           nacosClient := none
           nacosServiceChangedHandlers := [] } : DepService Unit Unit) "http"
      = some "" :=
  ⟨rfl, rfl, rfl⟩

end ResolverTheorems

/-! ## Theorems: streaming subscriber -/

theorem sleeps_append (a b : List WsEffect) : sleeps (a ++ b) = sleeps a ++ sleeps b := by
  induction a with
  | nil => rfl
  | cons e t ih => cases e <;> simp [sleeps, ih]

theorem handlerCalls_append (a b : List WsEffect) :
    handlerCalls (a ++ b) = handlerCalls a ++ handlerCalls b := by
  induction a with
  | nil => rfl
  | cons e t ih => cases e <;> simp [handlerCalls, ih]

theorem okReads_append (a b : List WsEffect) : okReads (a ++ b) = okReads a ++ okReads b := by
  induction a with
  | nil => rfl
  | cons e t ih =>
    cases e with
    | read c r => cases r <;> simp [okReads, ih]
    | _ => simp [okReads, ih]

theorem closed_append (a b : List WsEffect) : closed (a ++ b) = closed a ++ closed b := by
  induction a with
  | nil => rfl
  | cons e t ih => cases e <;> simp [closed, ih]

theorem backoffReading_append (a b : List WsEffect) :
    backoffReading (a ++ b) = b.foldl BackoffReading.next (backoffReading a) := by
  simp [backoffReading, List.foldl_append]

theorem deliveryReading_append (a b : List WsEffect) :
    deliveryReading (a ++ b) = b.foldl DeliveryReading.next (deliveryReading a) := by
  simp [deliveryReading, List.foldl_append]

theorem sleeps_failureEffects (key : String) (r : Nat) : sleeps (failureEffects key r) = [r] := by
  unfold failureEffects
  split <;> rfl

theorem handlerCalls_failureEffects (key : String) (r : Nat) :
    handlerCalls (failureEffects key r) = [] := by
  unfold failureEffects
  split <;> rfl

theorem okReads_failureEffects (key : String) (r : Nat) :
    okReads (failureEffects key r) = [] := by
  unfold failureEffects
  split <;> rfl

theorem RECONNECT_backoff (k : Nat) : RECONNECT (min (5 * k) 60) = min (5 * (k + 1)) 60 := by
  unfold RECONNECT
  split <;> omega

theorem backoff_failureEffects (key : String) (k : Nat) :
    (failureEffects key (min (5 * k) 60)).foldl BackoffReading.next
        { k := k + 1, owed := true, ok := true }
      = { k := k + 1, owed := false, ok := true } := by
  unfold failureEffects
  split <;> simp [List.foldl, BackoffReading.next, backoffWait]

theorem delivery_failureEffects (key : String) (r : Nat) :
    (failureEffects key r).foldl DeliveryReading.next
        { conn := none, pending := none, ok := true }
      = { conn := none, pending := none, ok := true } := by
  unfold failureEffects
  split <;> simp [List.foldl, DeliveryReading.next]

theorem run_succ (env : WsEnv) (n : Nat) (s : WsState) :
    run env (n + 1) s = step env (run env n s) := by
  induction n generalizing s with
  | zero => rfl
  | succ n ih =>
    show run env (n + 1) (step env s) = step env (run env (n + 1) s)
    rw [ih (step env s)]
    rfl

theorem run_add (env : WsEnv) (n m : Nat) (s : WsState) :
    run env (n + m) s = run env m (run env n s) := by
  induction n generalizing s with
  | zero => simp [run]
  | succ n ih =>
    have : n + 1 + m = (n + m) + 1 := by omega
    rw [this]
    show run env (n + m) (step env s) = run env m (run env n (step env s))
    exact ih (step env s)

/-- A property of states that holds initially and is kept by every pass holds after
any number of passes. -/
theorem run_invariant (env : WsEnv) (P : WsState → Prop)
    (hstep : ∀ s, P s → P (step env s)) (n : Nat) (s : WsState) (h : P s) :
    P (run env n s) := by
  induction n generalizing s with
  | zero => exact h
  | succ n ih => exact ih (step env s) (hstep s h)

/-- The backoff reading rejects a first wait of 5 seconds and a failure without a sleep. -/
theorem backoffReading_rejects :
    (backoffReading [WsEffect.dial 0 false, WsEffect.sleep 5]).ok = false
      ∧ (backoffReading [WsEffect.dial 0 false, WsEffect.dial 1 false]).ok = false
      ∧ (backoffReading [WsEffect.dial 0 false, WsEffect.sleep 0, WsEffect.sleep 0]).ok = false
      ∧ (backoffReading [WsEffect.dial 0 false, WsEffect.sleep 0, WsEffect.dial 1 false,
          WsEffect.sleep 5]).ok = true := by
  decide

/-- The delivery reading rejects a handler call without a read, a payload that differs
from the one read, a read on a connection whose read has failed, and a dropped payload. -/
theorem deliveryReading_rejects :
    (deliveryReading [WsEffect.dial 0 true, WsEffect.handler [1]]).ok = false
      ∧ (deliveryReading [WsEffect.dial 0 true, WsEffect.read 0 (some [1]),
          WsEffect.handler [2]]).ok = false
      ∧ (deliveryReading [WsEffect.dial 0 true, WsEffect.read 0 none,
          WsEffect.read 0 (some [1]), WsEffect.handler [1]]).ok = false
      ∧ (deliveryReading [WsEffect.dial 0 true, WsEffect.read 0 (some [1]),
          WsEffect.read 0 (some [2]), WsEffect.handler [2]]).ok = false
      ∧ (deliveryReading [WsEffect.dial 0 true, WsEffect.read 0 (some [1]),
          WsEffect.handler [1]]).ok = true := by
  decide

/-- The six ways one pass can go, each with the state it produces. -/
theorem step_cases (env : WsEnv) (s : WsState) :
    (s.pc = Label.CONNECT ∧ env.Dial s.dials = true
        ∧ step env s =
          { retryAfterSec := 0
            pc := Label.LOOP s.dials
            dials := s.dials + 1
            reads := s.reads
            trace := s.trace ++ [WsEffect.dial s.dials true] })
    ∨ (s.pc = Label.CONNECT ∧ env.Dial s.dials = false
        ∧ step env s =
          { retryAfterSec := RECONNECT s.retryAfterSec
            pc := Label.CONNECT
            dials := s.dials + 1
            reads := s.reads
            trace := s.trace ++ [WsEffect.dial s.dials false]
              ++ failureEffects "dial-websocket-failed" s.retryAfterSec })
    ∨ (∃ conn, s.pc = Label.LOOP conn ∧ env.Done s.trace.length = true
        ∧ step env s = { s with pc := Label.RETURN, trace := s.trace ++ [WsEffect.close conn] })
    ∨ (∃ conn, s.pc = Label.LOOP conn ∧ env.Done s.trace.length = false
        ∧ env.ReadMessage s.reads = none
        ∧ step env s =
          { retryAfterSec := RECONNECT s.retryAfterSec
            pc := Label.CONNECT
            dials := s.dials
            reads := s.reads + 1
            trace := s.trace ++ [WsEffect.read conn none]
              ++ failureEffects "read-websocket-message-failed" s.retryAfterSec })
    ∨ (∃ conn message, s.pc = Label.LOOP conn ∧ env.Done s.trace.length = false
        ∧ env.ReadMessage s.reads = some message
        ∧ step env s =
          { retryAfterSec := 0
            pc := Label.LOOP conn
            dials := s.dials
            reads := s.reads + 1
            trace := s.trace ++ [WsEffect.read conn (some message), WsEffect.handler message] })
    ∨ (s.pc = Label.RETURN ∧ step env s = s) := by
  rcases hpc : s.pc with _ | conn | _
  · rcases hd : env.Dial s.dials with _ | _
    · right; left
      refine ⟨rfl, rfl, ?_⟩
      simp [step, hpc, hd]
    · left
      refine ⟨rfl, rfl, ?_⟩
      simp [step, hpc, hd]
  · rcases hd : env.Done s.trace.length with _ | _
    · rcases hr : env.ReadMessage s.reads with _ | message
      · right; right; right; left
        refine ⟨conn, rfl, rfl, rfl, ?_⟩
        simp [step, hpc, hd, hr]
      · right; right; right; right; left
        refine ⟨conn, message, rfl, rfl, rfl, ?_⟩
        simp [step, hpc, hd, hr]
    · right; right; left
      refine ⟨conn, rfl, rfl, ?_⟩
      simp [step, hpc, hd]
  · right; right; right; right; right
    refine ⟨rfl, ?_⟩
    simp [step, hpc]

theorem backoff_after_failure (t : List WsEffect) (k : Nat) (e : WsEffect) (key : String)
    (he : ∀ m : BackoffReading,
      m.next e = { k := m.k + 1, owed := true, ok := m.ok && !m.owed })
    (h : backoffReading t = { k := k, owed := false, ok := true }) :
    backoffReading (t ++ [e] ++ failureEffects key (min (5 * k) 60))
      = { k := k + 1, owed := false, ok := true } := by
  rw [backoffReading_append, backoffReading_append, h]
  show (failureEffects key (min (5 * k) 60)).foldl BackoffReading.next
      (BackoffReading.next { k := k, owed := false, ok := true } e) = _
  rw [he]
  exact backoff_failureEffects key k

theorem backoff_after_success (t : List WsEffect) (k : Nat) (e : WsEffect)
    (he : ∀ m : BackoffReading, m.next e = { k := 0, owed := false, ok := m.ok && !m.owed })
    (h : backoffReading t = { k := k, owed := false, ok := true }) :
    backoffReading (t ++ [e]) = { k := 0, owed := false, ok := true } := by
  rw [backoffReading_append, h]
  show BackoffReading.next { k := k, owed := false, ok := true } e = _
  rw [he]
  rfl

theorem sleeps_after_failure (t : List WsEffect) (e : WsEffect) (key : String) (r : Nat)
    (he : sleeps [e] = []) :
    sleeps (t ++ [e] ++ failureEffects key r) = sleeps t ++ [r] := by
  rw [sleeps_append, sleeps_append, he, sleeps_failureEffects, List.append_nil]

theorem BackoffInv_step (env : WsEnv) (s : WsState) (h : BackoffInv s) :
    BackoffInv (step env s) := by
  obtain ⟨k, hread, hretry, hsl⟩ := h
  have hdvd : 5 ∣ min (5 * k) 60 ∧ min (5 * k) 60 ≤ 60 := by
    constructor
    · rcases Nat.le_total (5 * k) 60 with hle | hle
      · rw [Nat.min_eq_left hle]; exact Dvd.intro k rfl
      · rw [Nat.min_eq_right hle]; decide
    · exact Nat.min_le_right _ _
  have hfail : ∀ (e : WsEffect) (key : String), sleeps [e] = [] →
      ∀ w ∈ sleeps (s.trace ++ [e] ++ failureEffects key s.retryAfterSec),
        5 ∣ w ∧ w ≤ 60 := by
    intro e key he w hw
    rw [sleeps_after_failure _ _ _ _ he, List.mem_append, List.mem_singleton] at hw
    rcases hw with hw | hw
    · exact hsl w hw
    · rw [hw, hretry]; exact hdvd
  have hsucc : ∀ (l : List WsEffect), sleeps l = [] →
      ∀ w ∈ sleeps (s.trace ++ l), 5 ∣ w ∧ w ≤ 60 := by
    intro l hl w hw
    rw [sleeps_append, hl, List.append_nil] at hw
    exact hsl w hw
  rcases step_cases env s with ⟨_, _, hs⟩ | ⟨_, _, hs⟩ | ⟨c, _, _, hs⟩ | ⟨c, _, _, _, hs⟩
      | ⟨c, m, _, _, _, hs⟩ | ⟨_, hs⟩
  · rw [hs]
    exact ⟨0, backoff_after_success _ k _ (fun _ => rfl) hread, rfl, hsucc _ rfl⟩
  · rw [hs]
    refine ⟨k + 1, ?_, ?_, hfail _ _ rfl⟩
    · simp only [hretry]
      exact backoff_after_failure _ k _ _ (fun _ => rfl) hread
    · simp only [hretry]; exact RECONNECT_backoff k
  · rw [hs]
    refine ⟨k, ?_, hretry, hsucc _ rfl⟩
    show backoffReading (s.trace ++ [WsEffect.close c]) = _
    rw [backoffReading_append, hread]
    rfl
  · rw [hs]
    refine ⟨k + 1, ?_, ?_, hfail _ _ rfl⟩
    · simp only [hretry]
      exact backoff_after_failure _ k _ _ (fun _ => rfl) hread
    · simp only [hretry]; exact RECONNECT_backoff k
  · rw [hs]
    refine ⟨0, ?_, rfl, hsucc _ rfl⟩
    show backoffReading (s.trace ++ [WsEffect.read c (some m), WsEffect.handler m]) = _
    rw [backoffReading_append, hread]
    rfl
  · rw [hs]
    exact ⟨k, hread, hretry, hsl⟩

theorem BackoffInv_init : BackoffInv WsState.init :=
  ⟨0, rfl, rfl, by intro w hw; simp [WsState.init, sleeps] at hw⟩

/-- While every dial fails the subscriber stays at `CONNECT`, and after `n` passes it has
slept `0, 5, 10, ...` capped at `60`. -/
theorem dial_failures (rd : Nat → Option Bytes) (dn : Nat → Bool) (n : Nat) :
    (SubscribeByWebSocket { Dial := fun _ => false, ReadMessage := rd, Done := dn } n).pc
        = Label.CONNECT
      ∧ (SubscribeByWebSocket { Dial := fun _ => false, ReadMessage := rd, Done := dn } n).retryAfterSec
        = min (5 * n) 60
      ∧ sleeps (SubscribeByWebSocket { Dial := fun _ => false, ReadMessage := rd, Done := dn } n).trace
        = (List.range n).map (fun i => min (5 * i) 60) := by
  induction n with
  | zero => exact ⟨rfl, rfl, rfl⟩
  | succ n ih =>
    obtain ⟨hpc, hretry, hsl⟩ := ih
    unfold SubscribeByWebSocket at hpc hretry hsl ⊢
    rw [run_succ]
    rcases step_cases { Dial := fun _ => false, ReadMessage := rd, Done := dn }
        (run { Dial := fun _ => false, ReadMessage := rd, Done := dn } n WsState.init)
      with ⟨_, hd, _⟩ | ⟨_, _, hs⟩ | ⟨c, hc, _⟩ | ⟨c, hc, _⟩ | ⟨c, m, hc, _⟩ | ⟨hc, _⟩
    · simp at hd
    · rw [hs]
      refine ⟨rfl, ?_, ?_⟩
      · simp only [hretry]; exact RECONNECT_backoff n
      · simp only []
        rw [sleeps_after_failure _ (WsEffect.dial _ false) _ _ rfl, hsl, hretry,
          List.range_succ, List.map_append]
        rfl
    · rw [hpc] at hc; cases hc
    · rw [hpc] at hc; cases hc
    · rw [hpc] at hc; cases hc
    · rw [hpc] at hc; cases hc

/-- C5: after any number of passes under any dial and read outcomes, every failed dial or
read in the trace has been followed, before the next dial or read, by exactly one sleep
of `min (5 * (k - 1)) 60` seconds, `k` counting the consecutive failures since the start
or the last successful dial or read; the counter kept by the code is the next such wait;
every sleep is a multiple of 5 and at most 60; and while every dial fails the sleeps are
`0, 5, 10, ...` capped at `60`. -/
theorem C5_backoff_waits :
    (∀ (env : WsEnv) (n : Nat),
      (backoffReading (SubscribeByWebSocket env n).trace).ok = true
        ∧ (backoffReading (SubscribeByWebSocket env n).trace).owed = false
        ∧ (SubscribeByWebSocket env n).retryAfterSec
            = backoffWait ((backoffReading (SubscribeByWebSocket env n).trace).k + 1)
        ∧ ∀ w ∈ sleeps (SubscribeByWebSocket env n).trace, 5 ∣ w ∧ w ≤ 60)
    ∧ (∀ (rd : Nat → Option Bytes) (dn : Nat → Bool) (n : Nat),
      sleeps (SubscribeByWebSocket { Dial := fun _ => false, ReadMessage := rd, Done := dn } n).trace
        = (List.range n).map (fun i => min (5 * i) 60)) := by
  refine ⟨?_, ?_⟩
  · intro env n
    obtain ⟨k, hread, hretry, hsl⟩ :=
      run_invariant env BackoffInv (BackoffInv_step env) n WsState.init BackoffInv_init
    unfold SubscribeByWebSocket
    rw [hread]
    exact ⟨rfl, rfl, hretry, hsl⟩
  · intro rd dn n
    exact (dial_failures rd dn n).2.2

theorem DeliveryInv_step (env : WsEnv) (s : WsState) (h : DeliveryInv env s) :
    DeliveryInv env (step env s) := by
  obtain ⟨hread, hcalls, hreads⟩ := h
  rcases step_cases env s with ⟨hpc, _, hs⟩ | ⟨hpc, _, hs⟩ | ⟨c, hpc, _, hs⟩
      | ⟨c, hpc, _, hr, hs⟩ | ⟨c, m, hpc, _, hr, hs⟩ | ⟨_, hs⟩
  · rw [hs]
    refine ⟨?_, ?_, ?_⟩
    · show deliveryReading (s.trace ++ [WsEffect.dial s.dials true]) = _
      rw [deliveryReading_append, hread, hpc]
      rfl
    · show handlerCalls (s.trace ++ _) = okReads (s.trace ++ _)
      rw [handlerCalls_append, okReads_append, hcalls]
      rfl
    · show okReads (s.trace ++ _) = _
      rw [okReads_append, hreads]
      simp [okReads]
  · rw [hs]
    refine ⟨?_, ?_, ?_⟩
    · show deliveryReading (s.trace ++ [WsEffect.dial s.dials false] ++ failureEffects _ _) = _
      rw [deliveryReading_append, deliveryReading_append, hread, hpc]
      exact delivery_failureEffects _ _
    · show handlerCalls (s.trace ++ _ ++ _) = okReads (s.trace ++ _ ++ _)
      rw [handlerCalls_append, handlerCalls_append, okReads_append, okReads_append, hcalls,
        handlerCalls_failureEffects, okReads_failureEffects]
      rfl
    · show okReads (s.trace ++ _ ++ _) = _
      rw [okReads_append, okReads_append, okReads_failureEffects, hreads]
      simp [okReads]
  · rw [hs]
    refine ⟨?_, ?_, ?_⟩
    · show deliveryReading (s.trace ++ [WsEffect.close c]) = _
      rw [deliveryReading_append, hread, hpc]
      rfl
    · show handlerCalls (s.trace ++ _) = okReads (s.trace ++ _)
      rw [handlerCalls_append, okReads_append, hcalls]
      rfl
    · show okReads (s.trace ++ _) = _
      rw [okReads_append, hreads]
      simp [okReads]
  · rw [hs]
    refine ⟨?_, ?_, ?_⟩
    · show deliveryReading (s.trace ++ [WsEffect.read c none] ++ failureEffects _ _) = _
      rw [deliveryReading_append, deliveryReading_append, hread, hpc]
      have : [WsEffect.read c none].foldl DeliveryReading.next
          { conn := connOf (Label.LOOP c), pending := none, ok := true }
          = { conn := none, pending := none, ok := true } := by
        simp [List.foldl, DeliveryReading.next, connOf]
      rw [this]
      exact delivery_failureEffects _ _
    · show handlerCalls (s.trace ++ _ ++ _) = okReads (s.trace ++ _ ++ _)
      rw [handlerCalls_append, handlerCalls_append, okReads_append, okReads_append, hcalls,
        handlerCalls_failureEffects, okReads_failureEffects]
      rfl
    · show okReads (s.trace ++ _ ++ _) = List.filterMap env.ReadMessage (List.range (s.reads + 1))
      rw [okReads_append, okReads_append, okReads_failureEffects, hreads, List.range_succ,
        List.filterMap_append]
      simp [okReads, hr]
  · rw [hs]
    refine ⟨?_, ?_, ?_⟩
    · show deliveryReading (s.trace ++ [WsEffect.read c (some m), WsEffect.handler m]) = _
      rw [deliveryReading_append, hread, hpc]
      simp [List.foldl, DeliveryReading.next, connOf]
    · show handlerCalls (s.trace ++ _) = okReads (s.trace ++ _)
      rw [handlerCalls_append, okReads_append, hcalls]
      rfl
    · show okReads (s.trace ++ _) = List.filterMap env.ReadMessage (List.range (s.reads + 1))
      rw [okReads_append, hreads, List.range_succ, List.filterMap_append]
      simp [okReads, hr]
  · rw [hs]
    exact ⟨hread, hcalls, hreads⟩

theorem DeliveryInv_init (env : WsEnv) : DeliveryInv env WsState.init :=
  ⟨rfl, rfl, rfl⟩

/-- C6: after any number of passes under any dial and read outcomes, the payloads handed
to the handler are exactly the payloads of the successful reads, in order and once each,
and these are the successful outcomes among the reads performed; every read was made on
the connection of the latest successful dial with no failed read since, every successful
read was followed at once by the handler call with its payload, and the handler was
called at no other time, so never after a failed dial or read until a new dial and a read
on the new connection have succeeded. -/
theorem C6_handler_gets_successful_reads (env : WsEnv) (n : Nat) :
    handlerCalls (SubscribeByWebSocket env n).trace = okReads (SubscribeByWebSocket env n).trace
      ∧ okReads (SubscribeByWebSocket env n).trace
          = (List.range (SubscribeByWebSocket env n).reads).filterMap env.ReadMessage
      ∧ (deliveryReading (SubscribeByWebSocket env n).trace).ok = true
      ∧ (deliveryReading (SubscribeByWebSocket env n).trace).pending = none := by
  obtain ⟨hread, hcalls, hreads⟩ :=
    run_invariant env (DeliveryInv env) (DeliveryInv_step env) n WsState.init
      (DeliveryInv_init env)
  unfold SubscribeByWebSocket
  rw [hread]
  exact ⟨hcalls, hreads, rfl, rfl⟩

/-- After `return` nothing more happens. -/
theorem run_RETURN (env : WsEnv) (n : Nat) (s : WsState) (h : s.pc = Label.RETURN) :
    run env n s = s := by
  induction n with
  | zero => rfl
  | succ n ih =>
    have hs : step env s = s := by simp [step, h]
    show run env n (step env s) = s
    rw [hs, ih]

/-- At the head of the loop with the context cancelled, the subscriber closes the
connection and returns. -/
theorem run_cancelled (env : WsEnv) (s : WsState) (conn : Nat) (hpc : s.pc = Label.LOOP conn)
    (hdone : env.Done s.trace.length = true) (n : Nat) :
    run env (n + 1) s
      = { s with pc := Label.RETURN, trace := s.trace ++ [WsEffect.close conn] } := by
  have hs : step env s
      = { s with pc := Label.RETURN, trace := s.trace ++ [WsEffect.close conn] } := by
    simp [step, hpc, hdone]
  show run env n (step env s) = _
  rw [hs]
  exact run_RETURN env n _ rfl

theorem lastDialed_append (a b : List WsEffect) :
    lastDialed (a ++ b)
      = b.foldl
          (fun acc e =>
            match e with
            | WsEffect.dial n true => some n
            | _ => acc)
          (lastDialed a) := by
  simp [lastDialed, List.foldl_append]

theorem afterDialOrHandler_failureEffects (t : List WsEffect) (key : String) (r : Nat) :
    afterDialOrHandler (t ++ failureEffects key r) = false := by
  have h : t ++ failureEffects key r
      = (t ++ [WsEffect.log key]
          ++ (if r == 60 then [WsEffect.log "websocket-service-may-be-down"] else [])
          ++ [WsEffect.log "reconnect-websocket"]) ++ [WsEffect.sleep r] := by
    simp [failureEffects]
  rw [h, afterDialOrHandler, List.getLast?_concat]

theorem ControlInv_step (env : WsEnv) (s : WsState) (h : ControlInv s) :
    ControlInv (step env s) := by
  obtain ⟨hloop, hconn, hret⟩ := h
  rcases step_cases env s with ⟨hpc, _, hs⟩ | ⟨hpc, _, hs⟩ | ⟨c, hpc, _, hs⟩
      | ⟨c, hpc, _, hr, hs⟩ | ⟨c, m, hpc, _, hr, hs⟩ | ⟨hpc, hs⟩
  · rw [hs]
    refine ⟨?_, ?_, ?_⟩
    · intro conn hc
      cases hc
      refine ⟨?_, ?_⟩
      · simp [afterDialOrHandler]
      · show lastDialed (s.trace ++ [WsEffect.dial s.dials true]) = _
        rw [lastDialed_append]
        rfl
    · intro hc; cases hc
    · intro hc; cases hc
  · rw [hs]
    refine ⟨?_, ?_, ?_⟩
    · intro conn hc; cases hc
    · intro _
      show afterDialOrHandler (s.trace ++ [WsEffect.dial s.dials false] ++ failureEffects _ _) = false
      exact afterDialOrHandler_failureEffects _ _ _
    · intro hc; cases hc
  · rw [hs]
    refine ⟨?_, ?_, ?_⟩
    · intro conn hc; cases hc
    · intro hc; cases hc
    · intro _
      simp [afterDialOrHandler]
  · rw [hs]
    refine ⟨?_, ?_, ?_⟩
    · intro conn hc; cases hc
    · intro _
      show afterDialOrHandler (s.trace ++ [WsEffect.read c none] ++ failureEffects _ _) = false
      exact afterDialOrHandler_failureEffects _ _ _
    · intro hc; cases hc
  · rw [hs]
    refine ⟨?_, ?_, ?_⟩
    · intro conn hc
      cases hc
      refine ⟨?_, ?_⟩
      · have : s.trace ++ [WsEffect.read c (some m), WsEffect.handler m]
            = (s.trace ++ [WsEffect.read c (some m)]) ++ [WsEffect.handler m] := by simp
        show afterDialOrHandler (s.trace ++ [WsEffect.read c (some m), WsEffect.handler m]) = true
        rw [this]
        simp [afterDialOrHandler]
      · show lastDialed (s.trace ++ [WsEffect.read c (some m), WsEffect.handler m]) = _
        rw [lastDialed_append, (hloop c hpc).2]
        rfl
    · intro hc; cases hc
    · intro hc; cases hc
  · rw [hs]
    exact ⟨hloop, hconn, hret⟩

theorem ControlInv_init : ControlInv WsState.init := by
  refine ⟨?_, ?_, ?_⟩
  · intro conn hc; cases hc
  · intro _; rfl
  · intro hc; cases hc

/-- C7 (as the code behaves): the cancellation signal is polled at the head of the read
loop, the control point reached after every successful dial and after every message
that was read and handed to the handler. When the subscriber has just completed a
successful dial or a handler call and the signal is set, it closes the connection of
its latest successful dial and returns, and whatever the environment does afterwards it
performs no further effect. -/
theorem C7_cancellation_polled_at_loop_head (env : WsEnv) (n : Nat)
    (hlast : afterDialOrHandler (SubscribeByWebSocket env n).trace = true)
    (hdone : env.Done (SubscribeByWebSocket env n).trace.length = true) :
    ∃ conn, lastDialed (SubscribeByWebSocket env n).trace = some conn
      ∧ ∀ m, SubscribeByWebSocket env (n + 1 + m)
          = { SubscribeByWebSocket env n with
              pc := Label.RETURN
              trace := (SubscribeByWebSocket env n).trace ++ [WsEffect.close conn] } := by
  obtain ⟨hloop, hconn, hret⟩ :=
    run_invariant env ControlInv (ControlInv_step env) n WsState.init ControlInv_init
  unfold SubscribeByWebSocket at hlast hdone ⊢
  rcases hpc : (run env n WsState.init).pc with _ | conn | _
  · rw [hconn hpc] at hlast; cases hlast
  · refine ⟨conn, (hloop conn hpc).2, ?_⟩
    intro m
    have : n + 1 + m = n + (m + 1) := by omega
    rw [this, run_add]
    exact run_cancelled env _ conn hpc hdone m
  · rw [hret hpc] at hlast; cases hlast

/-- Witness for C7: the context is cancelled while the first read is blocked; the message
is handled, the next poll finds the signal set, connection 0 is closed and nothing
follows. -/
theorem C7_cancellation_polled_at_loop_head_witness :
    afterDialOrHandler (SubscribeByWebSocket envCancelledDuringRead 2).trace = true
      ∧ envCancelledDuringRead.Done (SubscribeByWebSocket envCancelledDuringRead 2).trace.length
          = true
      ∧ ∃ conn, lastDialed (SubscribeByWebSocket envCancelledDuringRead 2).trace = some conn
        ∧ ∀ m, SubscribeByWebSocket envCancelledDuringRead (2 + 1 + m)
            = { SubscribeByWebSocket envCancelledDuringRead 2 with
                pc := Label.RETURN
                trace := (SubscribeByWebSocket envCancelledDuringRead 2).trace
                  ++ [WsEffect.close conn] } :=
  ⟨by decide, by decide,
    C7_cancellation_polled_at_loop_head envCancelledDuringRead 2 (by decide) (by decide)⟩

/-- C7 fails on the code. With the context cancelled before the call and every dial
failing, the subscriber has after three passes dialled three times and slept 0, 5 and 10
seconds, and stands at `CONNECT` again. With the context cancelled while the first read
is blocked (set at time 2, when the read has completed), the payload is still handed to
the handler. -/
theorem C7_counterexample :
    (envCancelledDialFails.Done 0 = true
      ∧ (SubscribeByWebSocket envCancelledDialFails 3).pc = Label.CONNECT
      ∧ (SubscribeByWebSocket envCancelledDialFails 3).trace
        = [WsEffect.dial 0 false, WsEffect.log "dial-websocket-failed",
            WsEffect.log "reconnect-websocket", WsEffect.sleep 0,
            WsEffect.dial 1 false, WsEffect.log "dial-websocket-failed",
            WsEffect.log "reconnect-websocket", WsEffect.sleep 5,
            WsEffect.dial 2 false, WsEffect.log "dial-websocket-failed",
            WsEffect.log "reconnect-websocket", WsEffect.sleep 10])
    ∧ (envCancelledDuringRead.Done 2 = true
      ∧ (SubscribeByWebSocket envCancelledDuringRead 2).trace
        = [WsEffect.dial 0 true, WsEffect.read 0 (some [104, 105]),
            WsEffect.handler [104, 105]]) := by
  decide

/-- C10, the code at the failing input: every dial succeeds and every read fails. After
three passes the subscriber has dialled a second time without any `close`, and
connections 0 and 1 are both open; one pass later a third one is open as well. -/
theorem C10_read_failure_leaves_connection_open :
    (SubscribeByWebSocket envReadFails 3).trace
        = [WsEffect.dial 0 true, WsEffect.read 0 none,
            WsEffect.log "read-websocket-message-failed",
            WsEffect.log "reconnect-websocket", WsEffect.sleep 0,
            WsEffect.dial 1 true]
      ∧ closed (SubscribeByWebSocket envReadFails 3).trace = []
      ∧ openConns (SubscribeByWebSocket envReadFails 3).trace = [0, 1]
      ∧ openConns (SubscribeByWebSocket envReadFails 5).trace = [0, 1, 2] := by
  decide

/-! ## Theorems: client pool -/

/-- The key `GetRestyClient` uses for its variadic argument. -/
theorem GetRestyClient_hit (baseUrl rest : List String) (url : String) (p : Pool)
    (c : RestyClient) (hkey : baseUrl = url :: rest) (h : p.restyClients url = some c) :
    GetRestyClient baseUrl p = (c, p) := by
  subst hkey
  simp [GetRestyClient, h]

/-- Only the first variadic argument matters, and none means `""`. -/
theorem GetRestyClient_key (baseUrl : List String) (p : Pool) :
    GetRestyClient baseUrl p = GetRestyClient [baseUrl.headD ""] p := by
  cases baseUrl <;> rfl

/-- No call of `GetRestyClient` replaces or removes an entry of the pool. -/
theorem GetRestyClient_keeps (baseUrl : List String) (p : Pool) (url : String)
    (c : RestyClient) (h : p.restyClients url = some c) :
    (GetRestyClient baseUrl p).2.restyClients url = some c := by
  rw [GetRestyClient_key]
  generalize baseUrl.headD "" = key
  rcases hk : p.restyClients key with _ | c2
  · have hne : url ≠ key := by
      intro heq
      rw [heq, hk] at h
      cases h
    simp [GetRestyClient, hk, Pool.Store, hne, h]
  · simp [GetRestyClient, hk, h]

theorem GetRestyClientCalls_keeps (calls : List (List String)) (p : Pool) (url : String)
    (c : RestyClient) (h : p.restyClients url = some c) :
    (GetRestyClientCalls calls p).restyClients url = some c := by
  induction calls generalizing p with
  | nil => exact h
  | cons b t ih => exact ih (GetRestyClient b p).2 (GetRestyClient_keeps b p url c h)

/-- After a call for `url` the pool holds the returned client under `url`. -/
theorem GetRestyClient_stored (url : String) (rest : List String) (p : Pool) :
    (GetRestyClient (url :: rest) p).2.restyClients url
      = some (GetRestyClient (url :: rest) p).1 := by
  rcases h : p.restyClients url with _ | c
  · simp [GetRestyClient, h, Pool.Store]
  · simp [GetRestyClient, h]

/-- C9: calls of `GetRestyClient` that do not overlap. A call with a URL already in the
pool returns the stored client and leaves the pool unchanged. A call with an unseen URL
constructs one client (the next identity, with the fixed retry and idle-connection
settings), stores it under that URL and leaves every other entry unchanged. After a call
for a URL, and after any further calls, a call for the same URL returns that same client
and leaves the pool unchanged. A call with no argument is a call with the URL `""`. -/
theorem C9_GetRestyClient_idempotent (p : Pool) (url : String) (rest : List String) :
    (∀ c, p.restyClients url = some c → GetRestyClient (url :: rest) p = (c, p))
    ∧ (p.restyClients url = none →
        (GetRestyClient (url :: rest) p).2.restyClients url
            = some (GetRestyClient (url :: rest) p).1
          ∧ (GetRestyClient (url :: rest) p).1
            = { id := p.constructed
                MaxIdleConnsPerHost := 10
                RetryCount := 3
                RetryWaitTimeSec := 5
                SetBaseURL := if url = "" then none else some url }
          ∧ (GetRestyClient (url :: rest) p).2.constructed = p.constructed + 1
          ∧ ∀ k, k ≠ url → (GetRestyClient (url :: rest) p).2.restyClients k = p.restyClients k)
    ∧ (∀ (later : List (List String)) (rest2 : List String),
        GetRestyClient (url :: rest2)
            (GetRestyClientCalls later (GetRestyClient (url :: rest) p).2)
          = ((GetRestyClient (url :: rest) p).1,
              GetRestyClientCalls later (GetRestyClient (url :: rest) p).2))
    ∧ GetRestyClient [] p = GetRestyClient [""] p := by
  refine ⟨?_, ?_, ?_, rfl⟩
  · intro c h
    exact GetRestyClient_hit _ rest url p c rfl h
  · intro h
    refine ⟨GetRestyClient_stored url rest p, ?_, ?_, ?_⟩
    · by_cases hu : url = ""
      · subst hu
        simp [GetRestyClient, h]
      · simp [GetRestyClient, h, hu]
    · simp [GetRestyClient, h]
    · intro k hk
      simp [GetRestyClient, h, Pool.Store, hk]
  · intro later rest2
    exact GetRestyClient_hit _ rest2 url _ _ rfl
      (GetRestyClientCalls_keeps later _ url _ (GetRestyClient_stored url rest p))

/-- Witness for C9: on the empty pool the URL `"http://svc"` is unseen and the first call
constructs client 0; on the pool it leaves, the URL is present and a second call returns
client 0 and changes nothing. -/
theorem C9_GetRestyClient_idempotent_witness :
    Pool.empty.restyClients "http://svc" = none
      ∧ (GetRestyClient ["http://svc"] Pool.empty).1
          = { id := 0
              MaxIdleConnsPerHost := 10
              RetryCount := 3
              RetryWaitTimeSec := 5
              SetBaseURL := some "http://svc" }
      ∧ (GetRestyClient ["http://svc"] Pool.empty).2.restyClients "http://svc"
          = some (GetRestyClient ["http://svc"] Pool.empty).1
      ∧ GetRestyClient ["http://svc"] (GetRestyClient ["http://svc"] Pool.empty).2
          = ((GetRestyClient ["http://svc"] Pool.empty).1,
              (GetRestyClient ["http://svc"] Pool.empty).2) :=
  ⟨rfl,
    ((C9_GetRestyClient_idempotent Pool.empty "http://svc" []).2.1 rfl).2.1,
    ((C9_GetRestyClient_idempotent Pool.empty "http://svc" []).2.1 rfl).1,
    (C9_GetRestyClient_idempotent (GetRestyClient ["http://svc"] Pool.empty).2 "http://svc" []).1
      _ (by decide)⟩

/-! ## Theorems: response envelope -/

/-- C8: `ResponseError` returns no error exactly when the status read from the body
equals the success code; in every other case the error text is `"invalid status: "`, the
decimal status, `" - "` and the message read from the body. -/
theorem C8_ResponseError (json : Jsoniter) (resBody : Bytes) (successCode : Int) :
    (ResponseError json resBody successCode = none
        ↔ json.GetToInt resBody "status" = successCode)
      ∧ (ResponseError json resBody successCode = none
        ∨ ResponseError json resBody successCode
            = some ("invalid status: " ++ Int.repr (json.GetToInt resBody "status")
                ++ " - " ++ json.GetToString resBody "message")) := by
  by_cases h : json.GetToInt resBody "status" = successCode
  · refine ⟨?_, Or.inl ?_⟩ <;> simp [ResponseError, h]
  · refine ⟨?_, Or.inr ?_⟩
    · simp [ResponseError, h]
    · simp only [ResponseError, bne_iff_ne, ne_eq, h, not_false_eq_true, if_true]
      rfl

end DepServiceGo
